import Mathlib

/- Verification development for the koit repository: a shallow embedding of
the request middleware pipeline and the lifecycle orchestrator implemented in
src/api.py, together with theorems checking the natural-language
specification against that embedding. Request paths are modelled as lists of
characters; the Python string primitives used by the code (startswith,
replace) are embedded with their CPython semantics. -/

namespace Koit

/-- Python str.startswith on character lists: startswith s p is true when p
is a leading segment of s. Models path.startswith(...) used by
fix_paths_middleware (src/api.py lines 156 and 158). -/
def startswith : List Char → List Char → Bool
  | _, [] => true
  | [], _ :: _ => false
  | c :: s, p :: ps => if c = p then startswith s ps else false

/-- Python str.replace on character lists: scans left to right and replaces
every non-overlapping occurrence of old by new (for empty old, new is
inserted before every character and at the end, as CPython does). Models
path.replace(...) used by fix_paths_middleware (src/api.py lines 157, 159). -/
def pyReplace (old new : List Char) : List Char → List Char
  | [] => if old.isEmpty then new else []
  | c :: rest =>
    if old.isEmpty then new ++ c :: pyReplace old new rest
    else if startswith (c :: rest) old then
      new ++ pyReplace old new (rest.drop (old.length - 1))
    else c :: pyReplace old new rest
termination_by s => s.length
decreasing_by
  all_goals simp [List.length_drop]
  all_goals omega

/-- The singular agent-run path piece, the string literal at src/api.py:156. -/
def agentRunSingular : List Char := ['/', 'v', '1', '/', 'a', 'g', 'e', 'n', 't', '-', 'r', 'u', 'n', '/']

/-- The plural agent-runs path piece, the string literal at src/api.py:157. -/
def agentRunPlural : List Char := ['/', 'v', '1', '/', 'a', 'g', 'e', 'n', 't', '-', 'r', 'u', 'n', 's', '/']

/-- The singular thread path piece, the string literal at src/api.py:158. -/
def threadSingular : List Char := ['/', 'v', '1', '/', 't', 'h', 'r', 'e', 'a', 'd', '/']

/-- The plural threads path piece, the string literal at src/api.py:159. -/
def threadPlural : List Char := ['/', 'v', '1', '/', 't', 'h', 'r', 'e', 'a', 'd', 's', '/']

/-- The path rewrite performed by fix_paths_middleware (src/api.py 153-160):
if the path starts with the singular agent-run piece every occurrence of it
is replaced by the plural form, else if it starts with the singular thread
piece every occurrence of that is replaced by its plural form, otherwise the
path is left unchanged. -/
def fix_paths (path : List Char) : List Char :=
  if startswith path agentRunSingular then pyReplace agentRunSingular agentRunPlural path
  else if startswith path threadSingular then pyReplace threadSingular threadPlural path
  else path

/-- HTTP response as the middleware observes it: only its status code
matters for the logging decision (src/api.py:173). -/
structure Resp where
  status_code : Nat
deriving DecidableEq

/-- One record emitted by logger.error in log_requests_middleware
(src/api.py:174): the path read from the shared request scope at log time,
the response status and the elapsed processing time. -/
structure LogEntry where
  path : List Char
  status_code : Nat
  elapsed : Nat
deriving DecidableEq

/-- Result of running a handler: the request scope path after the call (the
scope dict is shared by all middleware layers, so a mutation of
request.scope done below is visible above), the clock after the
call, the response, and the log records emitted so far. -/
structure HResult where
  scopePath : List Char
  clock : Nat
  resp : Resp
  logs : List LogEntry
deriving DecidableEq

/-- A handler takes the current scope path and the current clock value. -/
def Handler : Type := List Char → Nat → HResult

/-- fix_paths_middleware (src/api.py 152-162): rewrites the scope path with
fix_paths, then invokes call_next on the mutated scope. normCost is the time
spent inside this middleware body before the downstream call returns to the
logging layer above it. -/
def fix_paths_middleware (normCost : Nat) (call_next : Handler) : Handler :=
  fun path t => call_next (fix_paths path) (t + normCost)

/-- log_requests_middleware (src/api.py 164-178): records the start time,
invokes call_next, computes process_time = time-after - time-before, and
logs (method, request.url.path, status, process_time) exactly when the
status code is at least 400. The logged path is the scope path at log time,
which reflects any mutation performed by the downstream layers. -/
def log_requests_middleware (call_next : Handler) : Handler :=
  fun path t =>
    let start_time := t
    let r := call_next path t
    let process_time := r.clock - start_time
    if 400 ≤ r.resp.status_code then
      { r with logs := r.logs ++ [⟨r.scopePath, r.resp.status_code, process_time⟩] }
    else r

/-- The routing layer below both middlewares: computes a response from the
(normalized) path in cost time units and does not mutate the scope path. -/
def route_handler (route : List Char → Resp) (cost : Nat) : Handler :=
  fun path t => ⟨path, t + cost, route path, []⟩

/-- The middleware chain of src/api.py in execution order for one inbound
request: log_requests_middleware is registered after fix_paths_middleware,
so it runs outside it and wraps the whole downstream call (the CORS layer
added last sits further outside and does not touch path, timing or logs). -/
def app_pipeline (route : List Char → Resp) (normCost cost : Nat) : Handler :=
  log_requests_middleware (fix_paths_middleware normCost (route_handler route cost))

/-- The initialization and shutdown steps of the lifespan (src/api.py
85-146), in source order. Each name stands for one awaited or called
external operation. -/
inductive StepName
  | dbInitialize
  | initDb
  | probe
  | warmUpToolsCache
  | loadStaticSunaConfig
  | sandboxInit
  | redisInit
  | orphanCleanup
  | triggersInit
  | credentialsInit
  | templateInit
  | composioInit
  | lifecycleInit
  | redisClose
  | dbDisconnect
  | closeDb
deriving DecidableEq

/-- The four background tasks spawned with asyncio.create_task in the
lifespan (src/api.py 117-126). -/
inductive TaskName
  | workerMetrics
  | streamCleanup
  | memoryWatchdog
  | poolService
deriving DecidableEq

/-- The resources released during shutdown (src/api.py 139-143): the redis
cache client, the DBConnection pool and the core.services.db module pool. -/
inductive ResName
  | redis
  | db
  | dbModule
deriving DecidableEq

/-- Deployment mode read from configuration; the lifespan compares it
against the production value at src/api.py:117. -/
inductive EnvMode
  | production
  | staging
  | development
deriving DecidableEq

/-- Observable events of one lifespan run. -/
inductive Ev
  | stepOk (s : StepName)
  | stepFailed (s : StepName)
  | taskCreated (t : TaskName)
  | ready
  | shutdownFlagSet
  | graceSleep
  | cancelSet (t : TaskName)
  | taskAwaited (t : TaskName)
  | closed (r : ResName)
  | closeFailed (r : ResName)
  | errorLogged
deriving DecidableEq

/-- Environment of one run: which external operations raise when invoked,
and the configured deployment mode. -/
structure Env where
  fails : StepName → Bool
  mode : EnvMode

/-- Criticality of an init step: required steps are awaited bare (an
exception aborts the lifespan), best-effort steps sit inside a
try/except-pass of their own. -/
inductive Crit
  | required
  | bestEffort
deriving DecidableEq

/-- One subsystem initialization entry. -/
structure Entry where
  name : StepName
  crit : Crit

/-- The initialization sequence of the lifespan in source order
(src/api.py 89-115). db.initialize, init_db, warm_up_tools_cache,
load_static_suna_config, sandbox_api.initialize and the four router
initialize calls are bare (required); the SELECT 1 probe, the redis client
init and the orphan cleanup each sit in a try/except-pass (best effort). -/
def initEntries : List Entry := [
  ⟨StepName.dbInitialize, Crit.required⟩,
  ⟨StepName.initDb, Crit.required⟩,
  ⟨StepName.probe, Crit.bestEffort⟩,
  ⟨StepName.warmUpToolsCache, Crit.required⟩,
  ⟨StepName.loadStaticSunaConfig, Crit.required⟩,
  ⟨StepName.sandboxInit, Crit.required⟩,
  ⟨StepName.redisInit, Crit.bestEffort⟩,
  ⟨StepName.orphanCleanup, Crit.bestEffort⟩,
  ⟨StepName.triggersInit, Crit.required⟩,
  ⟨StepName.credentialsInit, Crit.required⟩,
  ⟨StepName.templateInit, Crit.required⟩,
  ⟨StepName.composioInit, Crit.required⟩]

/-- Runs the initialization entries in order. A failing best-effort entry
records its failure and continues; a failing required entry stops the
sequence at once (its exception propagates). The Boolean is true when the
whole sequence completed. -/
def runInit (fails : StepName → Bool) : List Entry → List Ev × Bool
  | [] => ([], true)
  | en :: rest =>
    if fails en.name then
      match en.crit with
      | Crit.required => ([Ev.stepFailed en.name], false)
      | Crit.bestEffort =>
          (Ev.stepFailed en.name :: (runInit fails rest).1, (runInit fails rest).2)
    else (Ev.stepOk en.name :: (runInit fails rest).1, (runInit fails rest).2)

/-- The asyncio.create_task calls of the lifespan (src/api.py 117-126): the
worker metrics publisher only when the mode is production, then the stream
cleanup task, the memory watchdog and the sandbox pool service. -/
def taskStartup (mode : EnvMode) : List Ev :=
  (if mode = EnvMode.production then [Ev.taskCreated TaskName.workerMetrics] else []) ++
  [Ev.taskCreated TaskName.streamCleanup,
   Ev.taskCreated TaskName.memoryWatchdog,
   Ev.taskCreated TaskName.poolService]

/-- The shutdown phase after the yield (src/api.py 133-143): set the
shutdown flag, sleep two seconds, cancel the worker metrics task when it
exists and the memory watchdog task, close redis inside a try/except-pass,
then disconnect the DBConnection pool and close the module-level pool (both
bare, so a failure there propagates). The Boolean is true when the phase
completed without raising. -/
def shutdownSeq (e : Env) : List Ev × Bool :=
  let pre : List Ev :=
    [Ev.shutdownFlagSet, Ev.graceSleep] ++
    (if e.mode = EnvMode.production then [Ev.cancelSet TaskName.workerMetrics] else []) ++
    [Ev.cancelSet TaskName.memoryWatchdog] ++
    (if e.fails StepName.redisClose then [Ev.closeFailed ResName.redis]
     else [Ev.closed ResName.redis])
  if e.fails StepName.dbDisconnect then (pre ++ [Ev.stepFailed StepName.dbDisconnect], false)
  else if e.fails StepName.closeDb then
    (pre ++ [Ev.closed ResName.db, Ev.stepFailed StepName.closeDb], false)
  else (pre ++ [Ev.closed ResName.db, Ev.closed ResName.dbModule], true)

/-- One full run of the lifespan context manager (src/api.py 85-146): the
init sequence, then the task creations, then lifecycle.initialize, then the
yield (the service is ready and serves until told to stop), then the
shutdown phase. The whole body sits in one try block whose except handler
logs the error and re-raises, so any propagating failure appends an
errorLogged event and makes the run raise (Boolean true). -/
def lifespan (e : Env) : List Ev × Bool :=
  if (runInit e.fails initEntries).2 then
    if e.fails StepName.lifecycleInit then
      ((runInit e.fails initEntries).1 ++ taskStartup e.mode ++
        [Ev.stepFailed StepName.lifecycleInit, Ev.errorLogged], true)
    else
      if (shutdownSeq e).2 then
        ((runInit e.fails initEntries).1 ++ taskStartup e.mode ++
          [Ev.stepOk StepName.lifecycleInit, Ev.ready] ++ (shutdownSeq e).1, false)
      else
        ((runInit e.fails initEntries).1 ++ taskStartup e.mode ++
          [Ev.stepOk StepName.lifecycleInit, Ev.ready] ++ (shutdownSeq e).1 ++
          [Ev.errorLogged], true)
  else ((runInit e.fails initEntries).1 ++ [Ev.errorLogged], true)

/-- Recognizes the two event kinds an initialization entry can emit. -/
def isStepEv : Ev → Bool
  | Ev.stepOk _ => true
  | Ev.stepFailed _ => true
  | _ => false

/-- Recognizes resource-release events (completed or attempted closes). -/
def isCloseEv : Ev → Bool
  | Ev.closed _ => true
  | Ev.closeFailed _ => true
  | _ => false

/-- Recognizes task-await events (the code never awaits a task, so a trace
never contains one; the recognizer makes that statable). -/
def isAwaitEv : Ev → Bool
  | Ev.taskAwaited _ => true
  | _ => false

/-- Recognizes the creation event of the worker metrics task. -/
def isWorkerMetricsCreate : Ev → Bool
  | Ev.taskCreated TaskName.workerMetrics => true
  | _ => false

/-- Number of worker-metrics task creations in a trace. -/
def countWorkerMetrics (l : List Ev) : Nat :=
  (l.filter isWorkerMetricsCreate).length

/-- Environment in which no external operation fails, in production mode. -/
def envAllOk : Env := ⟨fun _ => false, EnvMode.production⟩

/-- Environment in which only lifecycle.initialize raises (production). -/
def envLifecycleFail : Env := ⟨fun s => s == StepName.lifecycleInit, EnvMode.production⟩

/-- Environment in which only the redis cache client init raises. -/
def envRedisFail : Env := ⟨fun s => s == StepName.redisInit, EnvMode.production⟩

/-- Environment in which only the SELECT 1 connectivity probe raises. -/
def envProbeFail : Env := ⟨fun s => s == StepName.probe, EnvMode.production⟩

/-- Environment in which only db.initialize raises. -/
def envDbFail : Env := ⟨fun s => s == StepName.dbInitialize, EnvMode.production⟩

/-- A route that always answers 200, regardless of path. -/
def routeOk200 : List Char → Resp := fun _ => ⟨200⟩

/-- A route that always answers 404, regardless of path. -/
def route404 : List Char → Resp := fun _ => ⟨404⟩

/-- A route that always answers 500, regardless of path. -/
def route500 : List Char → Resp := fun _ => ⟨500⟩

/-- A request path the normalization leaves untouched. -/
def plainPath : List Char := ( "/v1/health" ).data

/-- Example singular path with two occurrences of the thread piece. -/
def twoThreadPath : List Char := ( "/v1/thread/a/v1/thread/b" ).data

/-- The two-occurrence path after normalization. -/
def twoThreadPathOut : List Char := ( "/v1/threads/a/v1/threads/b" ).data

theorem startswith_nil (s : List Char) : startswith s [] = true := by
  cases s <;> rfl

theorem startswith_append (p t : List Char) : startswith (p ++ t) p = true := by
  induction p with
  | nil => exact startswith_nil t
  | cons a ps ih => simp [startswith, ih]

theorem startswith_exists {s p : List Char} (h : startswith s p = true) :
    ∃ t, s = p ++ t := by
  induction p generalizing s with
  | nil => exact ⟨s, rfl⟩
  | cons a ps ih =>
    cases s with
    | nil => simp [startswith] at h
    | cons c s2 =>
      by_cases hca : c = a
      · subst hca
        simp [startswith] at h
        obtain ⟨t, ht⟩ := ih h
        exact ⟨t, by simp [ht]⟩
      · simp [startswith, hca] at h

theorem startswith_of_le {p q s : List Char} (hp : startswith s p = true)
    (hq : startswith s q = true) (hle : p.length ≤ q.length) :
    startswith q p = true := by
  induction p generalizing q s with
  | nil => exact startswith_nil q
  | cons a ps ih =>
    cases s with
    | nil => simp [startswith] at hp
    | cons c s2 =>
      cases q with
      | nil => simp at hle
      | cons b qs =>
        by_cases hca : c = a
        · subst hca
          by_cases hcb : c = b
          · subst hcb
            simp [startswith] at hp hq ⊢
            have hle2 : ps.length ≤ qs.length := by simpa using hle
            exact ih hp hq hle2
          · simp [startswith, hcb] at hq
        · simp [startswith, hca] at hp

theorem sw_false_short {s p q : List Char} (hq : startswith s q = true)
    (hle : p.length ≤ q.length) (hpq : startswith q p = false) :
    startswith s p = false := by
  cases h : startswith s p
  · rfl
  · exact absurd (startswith_of_le h hq hle) (by simp [hpq])

theorem sw_false_long {s p q : List Char} (hq : startswith s q = true)
    (hle : q.length ≤ p.length) (hqp : startswith p q = false) :
    startswith s p = false := by
  cases h : startswith s p
  · rfl
  · exact absurd (startswith_of_le hq h hle) (by simp [hqp])

theorem pyReplace_nil {old : List Char} (new : List Char) (h : old ≠ []) :
    pyReplace old new [] = [] := by
  cases old with
  | nil => exact absurd rfl h
  | cons o os => simp [pyReplace]

theorem pyReplace_nomatch {old : List Char} (new : List Char) {c : Char}
    {rest : List Char} (hne : old ≠ []) (h : startswith (c :: rest) old = false) :
    pyReplace old new (c :: rest) = c :: pyReplace old new rest := by
  cases old with
  | nil => exact absurd rfl hne
  | cons o os => simp [pyReplace, h]

theorem pyReplace_head_match {old : List Char} (new rest : List Char) (hne : old ≠ []) :
    pyReplace old new (old ++ rest) = new ++ pyReplace old new rest := by
  cases old with
  | nil => exact absurd rfl hne
  | cons o os =>
    have hsw : startswith ((o :: os) ++ rest) (o :: os) = true := startswith_append _ _
    simp only [List.cons_append] at hsw ⊢
    rw [pyReplace]
    simp only [List.isEmpty_cons, hsw, if_true, Bool.false_eq_true, if_false]
    have hd : (os ++ rest).drop ((o :: os).length - 1) = rest := by
      simp [List.drop_left]
    rw [hd]

theorem startswith_pyReplace_head {old : List Char} (new s : List Char)
    (hne : old ≠ []) (h : startswith s old = true) :
    startswith (pyReplace old new s) new = true := by
  obtain ⟨t, rfl⟩ := startswith_exists h
  rw [pyReplace_head_match new t hne]
  exact startswith_append _ _

theorem fix_paths_agentRun {path : List Char}
    (h : startswith path agentRunSingular = true) :
    fix_paths path = pyReplace agentRunSingular agentRunPlural path := by
  simp [fix_paths, h]

theorem fix_paths_thread {path : List Char}
    (h : startswith path threadSingular = true) :
    fix_paths path = pyReplace threadSingular threadPlural path := by
  have hA : startswith path agentRunSingular = false :=
    sw_false_long h (by decide) (by decide)
  simp [fix_paths, hA, h]

theorem fix_paths_unchanged_of_pluralAgentRun {path : List Char}
    (h : startswith path agentRunPlural = true) : fix_paths path = path := by
  have h1 : startswith path agentRunSingular = false :=
    sw_false_short h (by decide) (by decide)
  have h2 : startswith path threadSingular = false :=
    sw_false_short h (by decide) (by decide)
  simp [fix_paths, h1, h2]

theorem fix_paths_unchanged_of_pluralThread {path : List Char}
    (h : startswith path threadPlural = true) : fix_paths path = path := by
  have h1 : startswith path agentRunSingular = false :=
    sw_false_long h (by decide) (by decide)
  have h2 : startswith path threadSingular = false :=
    sw_false_short h (by decide) (by decide)
  simp [fix_paths, h1, h2]

theorem fix_paths_idem (path : List Char) :
    fix_paths (fix_paths path) = fix_paths path := by
  cases hA : startswith path agentRunSingular
  · cases hT : startswith path threadSingular
    · simp [fix_paths, hA, hT]
    · rw [fix_paths_thread hT]
      exact fix_paths_unchanged_of_pluralThread
        (startswith_pyReplace_head _ _ (by decide) hT)
  · rw [fix_paths_agentRun hA]
    exact fix_paths_unchanged_of_pluralAgentRun
      (startswith_pyReplace_head _ _ (by decide) hA)

/-- C7: path normalization is idempotent and exact. A path beginning with
the singular agent-run (resp. thread) piece is rewritten by replacing that
piece with its plural form, so the result begins with the plural piece; a
path already beginning with a plural piece is returned unchanged; and
applying the normalization twice equals applying it once. -/
theorem C7_fix_paths_idempotent_exact (path : List Char) :
    (startswith path agentRunSingular = true →
      fix_paths path = pyReplace agentRunSingular agentRunPlural path ∧
      startswith (fix_paths path) agentRunPlural = true) ∧
    (startswith path threadSingular = true →
      fix_paths path = pyReplace threadSingular threadPlural path ∧
      startswith (fix_paths path) threadPlural = true) ∧
    (startswith path agentRunPlural = true → fix_paths path = path) ∧
    (startswith path threadPlural = true → fix_paths path = path) ∧
    fix_paths (fix_paths path) = fix_paths path := by
  refine ⟨fun h => ⟨fix_paths_agentRun h, ?_⟩,
          fun h => ⟨fix_paths_thread h, ?_⟩,
          fun h => fix_paths_unchanged_of_pluralAgentRun h,
          fun h => fix_paths_unchanged_of_pluralThread h,
          fix_paths_idem path⟩
  · rw [fix_paths_agentRun h]
    exact startswith_pyReplace_head _ _ (by decide) h
  · rw [fix_paths_thread h]
    exact startswith_pyReplace_head _ _ (by decide) h

/-- Witness for C7: the theorem applied to the concrete singular path
/v1/agent-run/x, whose normalization begins with the plural piece. -/
theorem C7_witness :
    startswith (( "/v1/agent-run/x" ).data) agentRunSingular = true ∧
    (fix_paths (( "/v1/agent-run/x" ).data) =
      pyReplace agentRunSingular agentRunPlural (( "/v1/agent-run/x" ).data) ∧
     startswith (fix_paths (( "/v1/agent-run/x" ).data)) agentRunPlural = true) :=
  ⟨by decide, (C7_fix_paths_idempotent_exact (( "/v1/agent-run/x" ).data)).1 (by decide)⟩

/-- C10: when a path begins with a singular piece, the middleware replaces
every occurrence of that singular piece in the whole path, not only the
leading one; in particular /v1/thread/a/v1/thread/b has both occurrences
rewritten. -/
theorem C10_replace_all_occurrences :
    (∀ path, startswith path agentRunSingular = true →
      fix_paths path = pyReplace agentRunSingular agentRunPlural path) ∧
    (∀ path, startswith path threadSingular = true →
      fix_paths path = pyReplace threadSingular threadPlural path) ∧
    fix_paths twoThreadPath = twoThreadPathOut := by
  refine ⟨fun path h => fix_paths_agentRun h, fun path h => fix_paths_thread h, ?_⟩
  simp [twoThreadPath, twoThreadPathOut, fix_paths, pyReplace, startswith,
    agentRunSingular, agentRunPlural, threadSingular, threadPlural]

/-- Witness for C10: the theorem applied to the concrete two-occurrence
thread path. -/
theorem C10_witness :
    fix_paths twoThreadPath = pyReplace threadSingular threadPlural twoThreadPath :=
  (C10_replace_all_occurrences).2.1 twoThreadPath (by decide)

/-- C3: for every inbound request, normalization is applied before the
logging stage captures the path (the logged path and the scope path both
equal the normalized path), and the logging stage wraps the entire
downstream call, so the recorded elapsed time is the full time spent in
normalization plus routing. -/
theorem C3_normalization_before_logging (route : List Char → Resp)
    (normCost cost : Nat) (path : List Char) (t : Nat) :
    (app_pipeline route normCost cost path t).resp = route (fix_paths path) ∧
    (app_pipeline route normCost cost path t).scopePath = fix_paths path ∧
    (app_pipeline route normCost cost path t).clock = t + normCost + cost ∧
    (app_pipeline route normCost cost path t).logs =
      (if 400 ≤ (route (fix_paths path)).status_code then
        [⟨fix_paths path, (route (fix_paths path)).status_code, normCost + cost⟩]
       else []) := by
  unfold app_pipeline log_requests_middleware fix_paths_middleware route_handler
  by_cases h : 400 ≤ (route (fix_paths path)).status_code
  · simp [h]
    omega
  · simp [h]

/-- C4 evidence: the code logs a request purely by status. A successful
request that takes 5000 time units produces no log record, while a 404
request is logged; the duration clause announced by the code's own comment
is absent. -/
theorem C4_slow_success_unlogged :
    (app_pipeline routeOk200 0 5000 plainPath 0).logs = [] ∧
    (app_pipeline route404 0 0 plainPath 0).logs = [⟨plainPath, 404, 0⟩] := by
  constructor <;> decide

theorem runInit_isStepEv (f : StepName → Bool) (l : List Entry) :
    ∀ ev ∈ (runInit f l).1, isStepEv ev = true := by
  induction l with
  | nil => simp [runInit]
  | cons en rest ih =>
    intro ev hev
    cases h : f en.name
    · simp [runInit, h] at hev
      rcases hev with rfl | hm
      · simp [isStepEv]
      · exact ih ev hm
    · cases hc : en.crit
      · simp [runInit, h, hc] at hev
        simp [hev, isStepEv]
      · simp [runInit, h, hc] at hev
        rcases hev with rfl | hm
        · simp [isStepEv]
        · exact ih ev hm

theorem notMem_runInit {f : StepName → Bool} {l : List Entry} {ev : Ev}
    (h : isStepEv ev = false) : ev ∉ (runInit f l).1 := by
  intro hm
  have := runInit_isStepEv f l ev hm
  rw [h] at this
  exact Bool.false_ne_true this

theorem taskCreated_notin_runInit (f : StepName → Bool) (l : List Entry) (t : TaskName) :
    Ev.taskCreated t ∉ (runInit f l).1 :=
  notMem_runInit (by simp [isStepEv])

theorem cancelSet_notin_runInit (f : StepName → Bool) (l : List Entry) (t : TaskName) :
    Ev.cancelSet t ∉ (runInit f l).1 :=
  notMem_runInit (by simp [isStepEv])

theorem taskAwaited_notin_runInit (f : StepName → Bool) (l : List Entry) (t : TaskName) :
    Ev.taskAwaited t ∉ (runInit f l).1 :=
  notMem_runInit (by simp [isStepEv])

theorem errorLogged_notin_runInit (f : StepName → Bool) (l : List Entry) :
    Ev.errorLogged ∉ (runInit f l).1 :=
  notMem_runInit (by simp [isStepEv])

theorem isWMC_iff (a : Ev) :
    isWorkerMetricsCreate a = true ↔ a = Ev.taskCreated TaskName.workerMetrics := by
  cases a with
  | taskCreated t => cases t <;> simp [isWorkerMetricsCreate]
  | stepOk s => simp [isWorkerMetricsCreate]
  | stepFailed s => simp [isWorkerMetricsCreate]
  | ready => simp [isWorkerMetricsCreate]
  | shutdownFlagSet => simp [isWorkerMetricsCreate]
  | graceSleep => simp [isWorkerMetricsCreate]
  | cancelSet t => simp [isWorkerMetricsCreate]
  | taskAwaited t => simp [isWorkerMetricsCreate]
  | closed r => simp [isWorkerMetricsCreate]
  | closeFailed r => simp [isWorkerMetricsCreate]
  | errorLogged => simp [isWorkerMetricsCreate]

theorem countWM_append (l1 l2 : List Ev) :
    countWorkerMetrics (l1 ++ l2) = countWorkerMetrics l1 + countWorkerMetrics l2 := by
  simp [countWorkerMetrics, List.filter_append]

theorem countWM_eq_zero {l : List Ev}
    (h : Ev.taskCreated TaskName.workerMetrics ∉ l) : countWorkerMetrics l = 0 := by
  simp only [countWorkerMetrics, List.length_eq_zero]
  rw [List.filter_eq_nil_iff]
  intro a hm hp
  rw [(isWMC_iff a).mp hp] at hm
  exact h hm

theorem runInit_ok_iff (f : StepName → Bool) (l : List Entry) :
    (runInit f l).2 = true ↔ ∀ en ∈ l, en.crit = Crit.required → f en.name = false := by
  induction l with
  | nil => simp [runInit]
  | cons en rest ih =>
    cases h : f en.name
    · simp [runInit, h, ih, List.forall_mem_cons]
    · cases hc : en.crit
      · simp [runInit, h, hc, List.forall_mem_cons]
      · simp [runInit, h, hc, ih, List.forall_mem_cons]

theorem runInit_ok_map (f : StepName → Bool) (l : List Entry)
    (hall : ∀ en ∈ l, en.crit = Crit.required → f en.name = false) :
    (runInit f l).1 =
      l.map (fun en => if f en.name then Ev.stepFailed en.name else Ev.stepOk en.name) := by
  induction l with
  | nil => simp [runInit]
  | cons en rest ih =>
    have hrest : ∀ en2 ∈ rest, en2.crit = Crit.required → f en2.name = false :=
      fun en2 hm => hall en2 (List.mem_cons_of_mem _ hm)
    cases h : f en.name
    · simp [runInit, h, ih hrest]
    · cases hc : en.crit
      · exact absurd (hall en (List.mem_cons_self _ _) hc) (by simp [h])
      · simp [runInit, h, hc, ih hrest]

theorem runInit_append (f : StepName → Bool) (l1 l2 : List Entry) :
    runInit f (l1 ++ l2) =
      (if (runInit f l1).2 then ((runInit f l1).1 ++ (runInit f l2).1, (runInit f l2).2)
       else runInit f l1) := by
  induction l1 with
  | nil => simp [runInit]
  | cons en rest ih =>
    cases h : f en.name
    · cases h2 : (runInit f rest).2
      · simp [runInit, h, ih, h2]
      · simp [runInit, h, ih, h2]
    · cases hc : en.crit
      · simp [runInit, h, hc]
      · cases h2 : (runInit f rest).2
        · simp [runInit, h, hc, ih, h2]
        · simp [runInit, h, hc, ih, h2]

theorem mem_taskStartup_iff (m : EnvMode) (ev : Ev) :
    ev ∈ taskStartup m ↔
      (ev = Ev.taskCreated TaskName.streamCleanup ∨
       ev = Ev.taskCreated TaskName.memoryWatchdog ∨
       ev = Ev.taskCreated TaskName.poolService ∨
       (ev = Ev.taskCreated TaskName.workerMetrics ∧ m = EnvMode.production)) := by
  cases m <;> (simp [taskStartup]; try tauto)

theorem shutdownFlagSet_mem_shutdownSeq (e : Env) :
    Ev.shutdownFlagSet ∈ (shutdownSeq e).1 := by
  rcases e with ⟨f, m⟩
  cases m <;> cases h1 : f StepName.dbDisconnect <;> cases h2 : f StepName.closeDb <;>
    cases h3 : f StepName.redisClose <;> simp [shutdownSeq, h1, h2, h3]

theorem cancelSet_mem_shutdownSeq (e : Env) (t : TaskName) :
    Ev.cancelSet t ∈ (shutdownSeq e).1 ↔
      (t = TaskName.memoryWatchdog ∨
       (t = TaskName.workerMetrics ∧ e.mode = EnvMode.production)) := by
  rcases e with ⟨f, m⟩
  cases m <;> cases h1 : f StepName.dbDisconnect <;> cases h2 : f StepName.closeDb <;>
    cases h3 : f StepName.redisClose <;> simp [shutdownSeq, h1, h2, h3] <;> tauto

theorem taskCreated_notin_shutdownSeq (e : Env) (t : TaskName) :
    Ev.taskCreated t ∉ (shutdownSeq e).1 := by
  rcases e with ⟨f, m⟩
  cases m <;> cases h1 : f StepName.dbDisconnect <;> cases h2 : f StepName.closeDb <;>
    cases h3 : f StepName.redisClose <;> simp [shutdownSeq, h1, h2, h3]

theorem taskAwaited_notin_shutdownSeq (e : Env) (t : TaskName) :
    Ev.taskAwaited t ∉ (shutdownSeq e).1 := by
  rcases e with ⟨f, m⟩
  cases m <;> cases h1 : f StepName.dbDisconnect <;> cases h2 : f StepName.closeDb <;>
    cases h3 : f StepName.redisClose <;> simp [shutdownSeq, h1, h2, h3]

theorem errorLogged_notin_shutdownSeq (e : Env) :
    Ev.errorLogged ∉ (shutdownSeq e).1 := by
  rcases e with ⟨f, m⟩
  cases m <;> cases h1 : f StepName.dbDisconnect <;> cases h2 : f StepName.closeDb <;>
    cases h3 : f StepName.redisClose <;> simp [shutdownSeq, h1, h2, h3]

theorem filter_isCloseEv_shutdownSeq (e : Env) :
    ((shutdownSeq e).1.filter isCloseEv) =
      (if e.fails StepName.redisClose then [Ev.closeFailed ResName.redis]
       else [Ev.closed ResName.redis]) ++
      (if e.fails StepName.dbDisconnect then []
       else [Ev.closed ResName.db] ++
         (if e.fails StepName.closeDb then [] else [Ev.closed ResName.dbModule])) := by
  rcases e with ⟨f, m⟩
  cases m <;> cases h1 : f StepName.dbDisconnect <;> cases h2 : f StepName.closeDb <;>
    cases h3 : f StepName.redisClose <;> simp [shutdownSeq, h1, h2, h3] <;> decide

theorem filter_isCloseEv_runInit (f : StepName → Bool) (l : List Entry) :
    ((runInit f l).1.filter isCloseEv) = [] := by
  rw [List.filter_eq_nil_iff]
  intro ev hm
  have h := runInit_isStepEv f l ev hm
  cases ev <;> simp_all [isStepEv, isCloseEv]

theorem filter_isCloseEv_taskStartup (m : EnvMode) :
    ((taskStartup m).filter isCloseEv) = [] := by
  cases m <;> decide

theorem lifespan_mem_iff (e : Env) (ev : Ev)
    (h1 : (runInit e.fails initEntries).2 = true) :
    ev ∈ (lifespan e).1 ↔
      (ev ∈ (runInit e.fails initEntries).1 ∨ ev ∈ taskStartup e.mode ∨
       (if e.fails StepName.lifecycleInit then
          ev = Ev.stepFailed StepName.lifecycleInit ∨ ev = Ev.errorLogged
        else
          ev = Ev.stepOk StepName.lifecycleInit ∨ ev = Ev.ready ∨
          ev ∈ (shutdownSeq e).1 ∨
          ((shutdownSeq e).2 = false ∧ ev = Ev.errorLogged))) := by
  unfold lifespan
  cases h2 : e.fails StepName.lifecycleInit <;> cases h3 : (shutdownSeq e).2 <;>
    simp [h1, h2, h3]

/-- C1 counterexample: in the run where only lifecycle.initialize (a
required step of the startup sequence) fails, the run raises, yet
background tasks had already been created — the claim predicts zero
created tasks whenever a required step fails. -/
theorem C1_counterexample :
    envLifecycleFail.fails StepName.lifecycleInit = true ∧
    (lifespan envLifecycleFail).2 = true ∧
    Ev.taskCreated TaskName.streamCleanup ∈ (lifespan envLifecycleFail).1 ∧
    Ev.taskCreated TaskName.poolService ∈ (lifespan envLifecycleFail).1 := by
  decide

/-- C1 amended: no SupervisedTask is created before every required entry of
the pre-task init sequence (db init through the four router inits) has
completed successfully — if that sequence fails, zero tasks are created —
but the stateless pipeline lifecycle initialization runs after task
creation, so task creation only requires the pre-task sequence. -/
theorem C1_no_tasks_before_required (e : Env) :
    ((runInit e.fails initEntries).2 = false →
      ∀ t, Ev.taskCreated t ∉ (lifespan e).1) ∧
    ((runInit e.fails initEntries).2 = true →
      Ev.taskCreated TaskName.streamCleanup ∈ (lifespan e).1) := by
  constructor
  · intro h t hmem
    unfold lifespan at hmem
    simp [h, taskCreated_notin_runInit] at hmem
  · intro h
    rw [lifespan_mem_iff e _ h]
    refine Or.inr (Or.inl ?_)
    rw [mem_taskStartup_iff]
    tauto

/-- Witness for C1: with db.initialize failing, the stream cleanup task is
never created. -/
theorem C1_witness :
    Ev.taskCreated TaskName.streamCleanup ∉ (lifespan envDbFail).1 :=
  ((C1_no_tasks_before_required envDbFail).1 (by decide)) TaskName.streamCleanup

/-- C2 counterexample: in a fully successful production run, the stream
cleanup and pool service tasks are created but never have their cancel
token set, and no task at all is awaited — the claim requires every
created task to be cancelled and awaited. -/
theorem C2_counterexample :
    Ev.taskCreated TaskName.streamCleanup ∈ (lifespan envAllOk).1 ∧
    Ev.cancelSet TaskName.streamCleanup ∉ (lifespan envAllOk).1 ∧
    Ev.taskCreated TaskName.poolService ∈ (lifespan envAllOk).1 ∧
    Ev.cancelSet TaskName.poolService ∉ (lifespan envAllOk).1 ∧
    ((lifespan envAllOk).1.filter isAwaitEv) = [] := by
  decide

/-- C2 amended: on every shutdown run the shutdown flag is set and, after
the grace sleep, cancel is called on the memory watchdog task and on the
worker metrics task exactly when it was created (production mode); the
stream cleanup and pool service tasks are never cancelled and no task is
awaited. -/
theorem C2_shutdown_cancels_two_tasks (e : Env)
    (h1 : (runInit e.fails initEntries).2 = true)
    (h2 : e.fails StepName.lifecycleInit = false) :
    Ev.shutdownFlagSet ∈ (lifespan e).1 ∧
    Ev.cancelSet TaskName.memoryWatchdog ∈ (lifespan e).1 ∧
    (Ev.cancelSet TaskName.workerMetrics ∈ (lifespan e).1 ↔
      e.mode = EnvMode.production) ∧
    Ev.cancelSet TaskName.streamCleanup ∉ (lifespan e).1 ∧
    Ev.cancelSet TaskName.poolService ∉ (lifespan e).1 ∧
    (∀ t, Ev.taskAwaited t ∉ (lifespan e).1) := by
  refine ⟨?_, ?_, ?_, ?_, ?_, ?_⟩
  · rw [lifespan_mem_iff e _ h1]
    simp [h2, shutdownFlagSet_mem_shutdownSeq]
  · rw [lifespan_mem_iff e _ h1]
    simp [h2, cancelSet_mem_shutdownSeq]
  · rw [lifespan_mem_iff e _ h1]
    simp [h2, mem_taskStartup_iff, cancelSet_mem_shutdownSeq, cancelSet_notin_runInit]
  · rw [lifespan_mem_iff e _ h1]
    simp [h2, mem_taskStartup_iff, cancelSet_mem_shutdownSeq, cancelSet_notin_runInit]
  · rw [lifespan_mem_iff e _ h1]
    simp [h2, mem_taskStartup_iff, cancelSet_mem_shutdownSeq, cancelSet_notin_runInit]
  · intro t
    rw [lifespan_mem_iff e _ h1]
    simp [h2, mem_taskStartup_iff, taskAwaited_notin_shutdownSeq,
      taskAwaited_notin_runInit]

/-- Witness for C2: the amended statement at the all-success production
environment. -/
theorem C2_witness :
    Ev.cancelSet TaskName.memoryWatchdog ∈ (lifespan envAllOk).1 ∧
    Ev.cancelSet TaskName.workerMetrics ∈ (lifespan envAllOk).1 := by
  have h := C2_shutdown_cancels_two_tasks envAllOk (by decide) rfl
  exact ⟨h.2.1, h.2.2.1.mpr rfl⟩

/-- C5 counterexample: in the run where only the redis cache client init
fails, the lifespan does not raise and readiness is reached — the claim
says a cache client acquisition failure is fatal and readiness is never
signaled. -/
theorem C5_counterexample :
    envRedisFail.fails StepName.redisInit = true ∧
    (lifespan envRedisFail).2 = false ∧
    Ev.ready ∈ (lifespan envRedisFail).1 := by
  decide

/-- C5 amended: a failure while acquiring the database pool is fatal — the
lifespan raises, readiness is never signaled and no background task is
created — while a failure while acquiring the cache client is swallowed and
startup continues to readiness. -/
theorem C5_db_failure_fatal :
    (∀ e : Env, e.fails StepName.dbInitialize = true →
      (lifespan e).2 = true ∧ Ev.ready ∉ (lifespan e).1 ∧
      ∀ t, Ev.taskCreated t ∉ (lifespan e).1) ∧
    ((lifespan envRedisFail).2 = false ∧ Ev.ready ∈ (lifespan envRedisFail).1) := by
  constructor
  · intro e h
    have hr : runInit e.fails initEntries = ([Ev.stepFailed StepName.dbInitialize], false) := by
      simp [initEntries, runInit, h]
    unfold lifespan
    rw [hr]
    simp
  · exact ⟨by decide, by decide⟩

/-- Witness for C5: the fatal branch applied to the run where db.initialize
fails. -/
theorem C5_witness :
    (lifespan envDbFail).2 = true ∧ Ev.ready ∉ (lifespan envDbFail).1 ∧
    ∀ t, Ev.taskCreated t ∉ (lifespan envDbFail).1 :=
  C5_db_failure_fatal.1 envDbFail (by decide)

/-- C6 counterexample: in the run where only the best-effort SELECT 1 probe
fails, the failure is captured, the sequence continues (the next entry
runs) and the run does not raise, but nothing is logged — the claim says a
best-effort failure is captured AND logged. -/
theorem C6_counterexample :
    envProbeFail.fails StepName.probe = true ∧
    Ev.stepFailed StepName.probe ∈ (lifespan envProbeFail).1 ∧
    Ev.errorLogged ∉ (lifespan envProbeFail).1 ∧
    (lifespan envProbeFail).2 = false ∧
    Ev.stepOk StepName.warmUpToolsCache ∈ (lifespan envProbeFail).1 := by
  decide

/-- C6 amended: a failure in a best-effort entry is captured and silently
swallowed (nothing is logged in a run that does not raise) and the sequence
continues, so every entry still produces its own outcome event; a failure
in a required entry aborts the entire remaining sequence and propagates, so
the lifespan raises. -/
theorem C6_best_effort_continues :
    (∀ f : StepName → Bool,
      (∀ en ∈ initEntries, en.crit = Crit.required → f en.name = false) →
      (runInit f initEntries).2 = true ∧
      (runInit f initEntries).1 =
        initEntries.map
          (fun en => if f en.name then Ev.stepFailed en.name else Ev.stepOk en.name)) ∧
    (∀ (f : StepName → Bool) (l1 l2 : List Entry) (en : Entry),
      en.crit = Crit.required → f en.name = true → (runInit f l1).2 = true →
      runInit f (l1 ++ en :: l2) = ((runInit f l1).1 ++ [Ev.stepFailed en.name], false)) ∧
    (∀ e : Env, (lifespan e).2 = false → Ev.errorLogged ∉ (lifespan e).1) ∧
    (∀ e : Env, (runInit e.fails initEntries).2 = false → (lifespan e).2 = true) := by
  refine ⟨?_, ?_, ?_, ?_⟩
  · intro f hall
    exact ⟨(runInit_ok_iff f initEntries).mpr hall, runInit_ok_map f initEntries hall⟩
  · intro f l1 l2 en hc hf hok
    rw [runInit_append]
    simp [hok, runInit, hf, hc]
  · intro e h hmem
    unfold lifespan at h hmem
    cases h1 : (runInit e.fails initEntries).2
    · simp [h1] at h
    · cases h2 : e.fails StepName.lifecycleInit
      · cases h3 : (shutdownSeq e).2
        · simp [h1, h2, h3] at h
        · simp [h1, h2, h3, errorLogged_notin_runInit, errorLogged_notin_shutdownSeq,
            mem_taskStartup_iff] at hmem
      · simp [h1, h2] at h
  · intro e h
    unfold lifespan
    simp [h]

/-- Witness for C6: the full-sequence branch applied to the probe-failure
environment, in which every required entry succeeds. -/
theorem C6_witness :
    (runInit envProbeFail.fails initEntries).2 = true ∧
    (runInit envProbeFail.fails initEntries).1 =
      initEntries.map
        (fun en => if envProbeFail.fails en.name then Ev.stepFailed en.name
         else Ev.stepOk en.name) :=
  C6_best_effort_continues.1 envProbeFail.fails (by decide)

/-- C8: on every shutdown run the close events appear in strict reverse
order of acquisition — the redis cache close (attempted or completed) comes
first, then the database pool disconnect, then the module-level pool close
— while the init sequence acquired the database (first event) before the
cache client (seventh event). -/
theorem C8_reverse_close_order (e : Env)
    (h1 : (runInit e.fails initEntries).2 = true)
    (h2 : e.fails StepName.lifecycleInit = false) :
    ((lifespan e).1.filter isCloseEv) =
      (if e.fails StepName.redisClose then [Ev.closeFailed ResName.redis]
       else [Ev.closed ResName.redis]) ++
      (if e.fails StepName.dbDisconnect then []
       else [Ev.closed ResName.db] ++
         (if e.fails StepName.closeDb then [] else [Ev.closed ResName.dbModule])) ∧
    (runInit e.fails initEntries).1 =
      Ev.stepOk StepName.dbInitialize :: Ev.stepOk StepName.initDb ::
      (if e.fails StepName.probe then Ev.stepFailed StepName.probe
       else Ev.stepOk StepName.probe) ::
      Ev.stepOk StepName.warmUpToolsCache :: Ev.stepOk StepName.loadStaticSunaConfig ::
      Ev.stepOk StepName.sandboxInit ::
      (if e.fails StepName.redisInit then Ev.stepFailed StepName.redisInit
       else Ev.stepOk StepName.redisInit) ::
      (if e.fails StepName.orphanCleanup then Ev.stepFailed StepName.orphanCleanup
       else Ev.stepOk StepName.orphanCleanup) ::
      [Ev.stepOk StepName.triggersInit, Ev.stepOk StepName.credentialsInit,
       Ev.stepOk StepName.templateInit, Ev.stepOk StepName.composioInit] := by
  have hall := (runInit_ok_iff e.fails initEntries).mp h1
  have h01 : e.fails StepName.dbInitialize = false :=
    hall ⟨StepName.dbInitialize, Crit.required⟩ (by simp [initEntries]) rfl
  have h02 : e.fails StepName.initDb = false :=
    hall ⟨StepName.initDb, Crit.required⟩ (by simp [initEntries]) rfl
  have h04 : e.fails StepName.warmUpToolsCache = false :=
    hall ⟨StepName.warmUpToolsCache, Crit.required⟩ (by simp [initEntries]) rfl
  have h05 : e.fails StepName.loadStaticSunaConfig = false :=
    hall ⟨StepName.loadStaticSunaConfig, Crit.required⟩ (by simp [initEntries]) rfl
  have h06 : e.fails StepName.sandboxInit = false :=
    hall ⟨StepName.sandboxInit, Crit.required⟩ (by simp [initEntries]) rfl
  have h09 : e.fails StepName.triggersInit = false :=
    hall ⟨StepName.triggersInit, Crit.required⟩ (by simp [initEntries]) rfl
  have h10 : e.fails StepName.credentialsInit = false :=
    hall ⟨StepName.credentialsInit, Crit.required⟩ (by simp [initEntries]) rfl
  have h11 : e.fails StepName.templateInit = false :=
    hall ⟨StepName.templateInit, Crit.required⟩ (by simp [initEntries]) rfl
  have h12 : e.fails StepName.composioInit = false :=
    hall ⟨StepName.composioInit, Crit.required⟩ (by simp [initEntries]) rfl
  constructor
  · unfold lifespan
    cases h3 : (shutdownSeq e).2 <;>
      simp [h1, h2, h3, List.filter_append, filter_isCloseEv_runInit,
        filter_isCloseEv_taskStartup, filter_isCloseEv_shutdownSeq, isCloseEv]
  · rw [runInit_ok_map e.fails initEntries hall]
    simp [initEntries, h01, h02, h04, h05, h06, h09, h10, h11, h12]

/-- Witness for C8: in the all-success run the close events are exactly
redis, then database pool, then module pool. -/
theorem C8_witness :
    ((lifespan envAllOk).1.filter isCloseEv) =
      [Ev.closed ResName.redis, Ev.closed ResName.db, Ev.closed ResName.dbModule] := by
  have h := (C8_reverse_close_order envAllOk (by decide) rfl).1
  simpa [envAllOk] using h

/-- C9: in every startup run whose init sequence completes, the worker
metrics publisher task is created exactly when the deployment mode is
production, and it is created exactly once (the predicate is read once, at
task-startup time). -/
theorem C9_worker_metrics_iff_production (e : Env)
    (h1 : (runInit e.fails initEntries).2 = true) :
    (Ev.taskCreated TaskName.workerMetrics ∈ (lifespan e).1 ↔
      e.mode = EnvMode.production) ∧
    countWorkerMetrics (lifespan e).1 =
      (if e.mode = EnvMode.production then 1 else 0) := by
  constructor
  · rw [lifespan_mem_iff e _ h1]
    cases h2 : e.fails StepName.lifecycleInit <;>
      simp [h2, mem_taskStartup_iff, taskCreated_notin_shutdownSeq,
        taskCreated_notin_runInit]
  · have hinit : countWorkerMetrics (runInit e.fails initEntries).1 = 0 :=
      countWM_eq_zero (taskCreated_notin_runInit e.fails initEntries TaskName.workerMetrics)
    have hts : countWorkerMetrics (taskStartup e.mode) =
        (if e.mode = EnvMode.production then 1 else 0) := by
      cases e.mode <;> decide
    have hsd : countWorkerMetrics (shutdownSeq e).1 = 0 :=
      countWM_eq_zero (taskCreated_notin_shutdownSeq e TaskName.workerMetrics)
    simp only [countWorkerMetrics] at hinit hts hsd
    unfold lifespan
    cases h2 : e.fails StepName.lifecycleInit <;> cases h3 : (shutdownSeq e).2 <;>
      simp [h1, h2, h3, countWorkerMetrics, isWorkerMetricsCreate,
        List.filter_append, hinit, hts, hsd]

/-- Witness for C9: in the all-success production run the worker metrics
task is created, exactly once. -/
theorem C9_witness :
    Ev.taskCreated TaskName.workerMetrics ∈ (lifespan envAllOk).1 ∧
    countWorkerMetrics (lifespan envAllOk).1 = 1 := by
  have h := C9_worker_metrics_iff_production envAllOk (by decide)
  exact ⟨h.1.mpr rfl, by simpa [envAllOk] using h.2⟩

end Koit
